import Mathlib

/-!
Verification of the OpenAPI parsing and example-generation layer of the
documentation-generator action.

The development shallowly embeds the two modules `src/openapi/openapi_parser.py`
(class OpenAPIParser) and `src/openapi/example_generator.py` (class
ExampleGenerator).  Python dictionaries and YAML values are modelled by the
inductive type `Json`; dictionaries keep their insertion order, as Python
dicts do.  The impure leaves of the example generator (uuid.uuid4() and
datetime.utcnow()) are abstracted by a `GenEnv` record of oracle values;
nothing proved below depends on the particular strings the oracle returns.
Python raises exceptions only on inputs outside the shapes the parser feeds
it (for instance calling dict.get on a non-dict); at those spots the model
returns a neutral default and a comment marks the spot.  Unbounded Python
recursion is modelled with an explicit fuel parameter; fuel is consumed one
unit per recursive call, so any theorem quantifying over fuel covers every
depth the Python code can reach.
-/

/-- JSON-like values: the model of Python dict / list / str / int / float /
bool / None trees loaded from the OpenAPI YAML.  `num` keeps a non-integral
numeric literal symbolically as the text of the literal. -/
inductive Json where
  | null
  | bool (b : Bool)
  | int (n : Int)
  | num (s : String)
  | str (s : String)
  | arr (elems : List Json)
  | obj (fields : List (String × Json))

mutual

/-- Structural equality test for `Json`. -/
def Json.beq : Json → Json → Bool
  | .null, .null => true
  | .bool a, .bool b => a == b
  | .int a, .int b => a == b
  | .num a, .num b => a == b
  | .str a, .str b => a == b
  | .arr xs, .arr ys => Json.beqList xs ys
  | .obj xs, .obj ys => Json.beqFields xs ys
  | _, _ => false

/-- Equality test for lists of `Json`. -/
def Json.beqList : List Json → List Json → Bool
  | [], [] => true
  | x :: xs, y :: ys => Json.beq x y && Json.beqList xs ys
  | _, _ => false

/-- Equality test for association lists of `Json`. -/
def Json.beqFields : List (String × Json) → List (String × Json) → Bool
  | [], [] => true
  | (k, v) :: xs, (k2, v2) :: ys => k == k2 && Json.beq v v2 && Json.beqFields xs ys
  | _, _ => false

end

mutual

theorem Json.beq_iff : ∀ a b : Json, Json.beq a b = true ↔ a = b
  | .null, .null => by simp [Json.beq]
  | .bool _, .bool _ => by simp [Json.beq]
  | .int _, .int _ => by simp [Json.beq]
  | .num _, .num _ => by simp [Json.beq]
  | .str _, .str _ => by simp [Json.beq]
  | .arr xs, .arr ys => by
      simp only [Json.beq, Json.beqList_iff xs ys, Json.arr.injEq]
  | .obj xs, .obj ys => by
      simp only [Json.beq, Json.beqFields_iff xs ys, Json.obj.injEq]
  | .null, .bool _ | .null, .int _ | .null, .num _ | .null, .str _ | .null, .arr _ | .null, .obj _
  | .bool _, .null | .bool _, .int _ | .bool _, .num _ | .bool _, .str _ | .bool _, .arr _ | .bool _, .obj _
  | .int _, .null | .int _, .bool _ | .int _, .num _ | .int _, .str _ | .int _, .arr _ | .int _, .obj _
  | .num _, .null | .num _, .bool _ | .num _, .int _ | .num _, .str _ | .num _, .arr _ | .num _, .obj _
  | .str _, .null | .str _, .bool _ | .str _, .int _ | .str _, .num _ | .str _, .arr _ | .str _, .obj _
  | .arr _, .null | .arr _, .bool _ | .arr _, .int _ | .arr _, .num _ | .arr _, .str _ | .arr _, .obj _
  | .obj _, .null | .obj _, .bool _ | .obj _, .int _ | .obj _, .num _ | .obj _, .str _ | .obj _, .arr _ => by
      simp [Json.beq]

theorem Json.beqList_iff : ∀ xs ys : List Json, Json.beqList xs ys = true ↔ xs = ys
  | [], [] => by simp [Json.beqList]
  | x :: xs, y :: ys => by
      simp [Json.beqList, Json.beq_iff x y, Json.beqList_iff xs ys]
  | [], _ :: _ => by simp [Json.beqList]
  | _ :: _, [] => by simp [Json.beqList]

theorem Json.beqFields_iff : ∀ xs ys : List (String × Json), Json.beqFields xs ys = true ↔ xs = ys
  | [], [] => by simp [Json.beqFields]
  | (k, v) :: xs, (k2, v2) :: ys => by
      simp [Json.beqFields, Json.beq_iff v v2, Json.beqFields_iff xs ys, Prod.ext_iff, and_assoc]
  | [], _ :: _ => by simp [Json.beqFields]
  | _ :: _, [] => by simp [Json.beqFields]

end

instance : BEq Json := ⟨Json.beq⟩

instance : LawfulBEq Json where
  eq_of_beq h := (Json.beq_iff _ _).mp h
  rfl := (Json.beq_iff _ _).mpr rfl

instance : DecidableEq Json := fun a b =>
  decidable_of_iff (Json.beq a b = true) (Json.beq_iff a b)

/-- Python `d.get(key)` on a dict: the first binding of the key, `none` when
the key is absent or the value is not a dict. -/
def Json.get? : Json → String → Option Json
  | .obj fs, k => fs.lookup k
  | _, _ => none

/-- Python `d.get(key, default)`. -/
def Json.getD (j : Json) (k : String) (d : Json) : Json := (j.get? k).getD d

/-- Python `key in d` on a dict. -/
def Json.hasKey (j : Json) (k : String) : Bool := (j.get? k).isSome

/-- The entry list of a dict, `[]` for any other value. -/
def objEntries : Json → List (String × Json)
  | .obj fs => fs
  | _ => []

/-- The element list of a list value, `[]` for any other value.  (At the spots
this is used, Python would raise a TypeError when iterating a non-list.) -/
def arrElems : Json → List Json
  | .arr xs => xs
  | _ => []

/-- Python truthiness of a value: None, False, 0, 0.0, empty string, empty
list and empty dict are falsy.  (The generator only ever builds nonzero `num`
literals.) -/
def isTruthy : Json → Bool
  | .null => false
  | .bool b => b
  | .int n => n != 0
  | .num s => !(s == "0" || s == "0.0")
  | .str s => !s.data.isEmpty
  | .arr xs => !xs.isEmpty
  | .obj fs => !fs.isEmpty

/-- Python dict assignment `d[k] = v`: replaces the value in place when the
key exists, otherwise appends the new binding at the end. -/
def updateField : List (String × Json) → String → Json → List (String × Json)
  | [], k, v => [(k, v)]
  | (k2, v2) :: rest, k, v =>
      if k2 == k then (k, v) :: rest else (k2, v2) :: updateField rest k v

/-- Python `base.update(new)` on dicts: fold each binding of `new` into
`base` with dict-assignment semantics. -/
def dictUpdate (base : List (String × Json)) (new : List (String × Json)) :
    List (String × Json) :=
  new.foldl (fun acc kv => updateField acc kv.1 kv.2) base

/-- The string payload of a string value.  (Python raises at the use sites
when the value is not a string; the claims only exercise string refs.) -/
def asStr : Json → String
  | .str s => s
  | _ => ""

/-- Python `str(...)` as used inside f-strings, restricted to the scalar
shapes the parser meets. -/
def pyStr : Json → String
  | .str s => s
  | .int n => toString n
  | .num s => s
  | .bool b => if b then "True" else "False"
  | .null => "None"
  | _ => ""

/-- Prefix test on character lists (Python str.startswith). -/
def listPre : List Char → List Char → Bool
  | [], _ => true
  | _ :: _, [] => false
  | a :: as, b :: bs => a == b && listPre as bs

/-- Substring occurrence test on character lists. -/
def listContainsSub (needle : List Char) : List Char → Bool
  | [] => listPre needle []
  | c :: cs => listPre needle (c :: cs) || listContainsSub needle cs

/-- Python `needle in hay` on strings. -/
def strContains (hay needle : String) : Bool := listContainsSub needle.data hay.data

/-- Python `s.startswith(p)`. -/
def strStartsWith (s p : String) : Bool := listPre p.data s.data

/-- The characters after the last occurrence of `sep` (the whole list when
`sep` does not occur). -/
def afterLastSep (sep : Char) (cs : List Char) : List Char :=
  cs.foldl (fun acc c => if c == sep then [] else acc ++ [c]) []

/-- Python `s.split(sep)[-1]` for a one-character separator. -/
def lastSeg (s : String) : String := ⟨afterLastSep '/' s.data⟩

/-- Worker for `strReplace`; the fuel is the length of the scanned list, which
suffices for any non-empty pattern. -/
def replaceGo (pat repl : List Char) : Nat → List Char → List Char
  | 0, s => s
  | _ + 1, [] => []
  | f + 1, c :: cs =>
      if listPre pat (c :: cs) then
        repl ++ replaceGo pat repl f (List.drop (pat.length - 1) cs)
      else c :: replaceGo pat repl f cs

/-- Python `s.replace(pat, repl)`: replace every non-overlapping occurrence
left to right (for a non-empty pattern). -/
def strReplace (s pat repl : String) : String :=
  ⟨replaceGo pat.data repl.data s.data.length s.data⟩

/-- Python `s.lower()` restricted to the ASCII identifiers the schemas use. -/
def strToLower (s : String) : String := ⟨s.data.map Char.toLower⟩

/-- Truthiness of a Python `Optional[str]`: None and the empty string are
falsy. -/
def optStrTruthy : Option String → Bool
  | none => false
  | some s => !s.data.isEmpty

/-- Oracle for the impure leaves of ExampleGenerator: uuid.uuid4() and the
datetime.utcnow() readings.  `nowTsMs` and `nowTsStr` are the millisecond
timestamp of the same clock reading as an int and as its decimal string. -/
structure GenEnv where
  uuid : String
  nowIso : String
  nowDate : String
  nowTsMs : Int
  nowTsStr : String

/-- ExampleGenerator._generate_string_example: format-based examples first,
then context-based examples keyed on substrings of the lowered property name,
then the default string.  The `schema` argument is unused, as in the source. -/
def generate_string_example (env : GenEnv) (fmt : Option Json) (name : Option String)
    (_schema : Json) : String :=
  if fmt == some (Json.str "uuid") then env.uuid
  else if fmt == some (Json.str "date-time") then env.nowIso
  else if fmt == some (Json.str "date") then env.nowDate
  else if fmt == some (Json.str "email") then "user@example.com"
  else if fmt == some (Json.str "uri") || fmt == some (Json.str "url") then
    "https://example.com/resource"
  else if fmt == some (Json.str "binary") then "(binary data)"
  else if fmt == some (Json.str "int64") then env.nowTsStr
  else
    match name with
    | some n =>
      if n.data.isEmpty then "example-string"
      else
        let nl := strToLower n
        if strContains nl "id" then env.uuid
        else if strContains nl "name" then "Example Name"
        else if strContains nl "description" then "Example description"
        else if strContains nl "path" then "example/path/to/resource"
        else if strContains nl "url" then "https://example.com"
        else if strContains nl "email" then "user@example.com"
        else if strContains nl "token" then "eyJhbGciOiJIUzI1NiIsInR5cCI6IkpXVCJ9..."
        else "example-string"
    | none => "example-string"

/-- ExampleGenerator._generate_integer_example. -/
def generate_integer_example (env : GenEnv) (fmt : Option Json) (name : Option String) : Int :=
  if fmt == some (Json.str "int64") then
    match name with
    | some n =>
      if !n.data.isEmpty &&
          (strContains (strToLower n) "timestamp" || strContains (strToLower n) "created" ||
            strContains (strToLower n) "updated") then
        env.nowTsMs
      else 1234567890
    | none => 1234567890
  else
    match name with
    | some n =>
      if n.data.isEmpty then 42
      else
        let nl := strToLower n
        if strContains nl "count" || strContains nl "limit" then 10
        else if strContains nl "offset" then 0
        else if strContains nl "id" then 12345
        else if strContains nl "port" then 8080
        else 42
    | none => 42

/-- ExampleGenerator._generate_number_example; the float results are kept as
their literal text. -/
def generate_number_example (fmt : Option Json) (name : Option String) : String :=
  let hasScore :=
    match name with
    | some n => !n.data.isEmpty && strContains (strToLower n) "score"
    | none => false
  if fmt == some (Json.str "double") then
    if hasScore then "0.85" else "3.14159"
  else if hasScore then "0.85" else "2.5"

/-- First phase of one _merge_all_of step: when the member has a properties
key, dict-update its properties into the merged properties dict (created
empty when absent). -/
def mergePropsStep (merged : List (String × Json)) (s : Json) : List (String × Json) :=
  if s.hasKey "properties" then
    updateField merged "properties"
      (Json.obj (dictUpdate (objEntries ((merged.lookup "properties").getD (Json.obj [])))
        (objEntries (s.getD "properties" (Json.obj [])))))
  else merged

/-- Second phase of one _merge_all_of step: when the member has a required
key, extend the merged required list (created empty when absent) with the
member required list. -/
def mergeRequiredStep (merged : List (String × Json)) (s : Json) : List (String × Json) :=
  if s.hasKey "required" then
    updateField merged "required"
      (Json.arr (arrElems ((merged.lookup "required").getD (Json.arr [])) ++
        arrElems (s.getD "required" (Json.arr []))))
  else merged

/-- Third phase of one _merge_all_of step: every member key other than
properties and required overwrites the merged binding. -/
def mergeOtherStep (merged : List (String × Json)) (s : Json) : List (String × Json) :=
  (objEntries s).foldl
    (fun m kv =>
      if kv.1 == "properties" || kv.1 == "required" then m
      else updateField m kv.1 kv.2)
    merged

/-- One step of ExampleGenerator._merge_all_of: fold a member schema into the
accumulated merged dict, running the three phases of the loop body in source
order. -/
def mergeStep (merged : List (String × Json)) (s : Json) : List (String × Json) :=
  mergeOtherStep (mergeRequiredStep (mergePropsStep merged s) s) s

/-- The entry list of ExampleGenerator._merge_all_of. -/
def mergeAllOfList (schemas : List Json) : List (String × Json) :=
  schemas.foldl mergeStep []

/-- ExampleGenerator._merge_all_of: merge the allOf member schemas into one
schema; builds a fresh dict, the inputs are only read. -/
def mergeAllOf (schemas : List Json) : Json := Json.obj (mergeAllOfList schemas)

/-- ExampleGenerator._generate_array_example, with the recursive call to
generate_from_schema supplied as `gen`.  count = min(max(minItems, 1), 2). -/
def generate_array_example (gen : Json → Option String → Json) (schema : Json)
    (name : Option String) : Json :=
  let itemsSchema := schema.getD "items" (Json.obj [])
  let mi : Int :=
    match schema.getD "minItems" (Json.int 1) with
    | .int n => n
    | .bool b => if b then 1 else 0
    | _ => 1
  let count := min (max mi 1) 2
  Json.arr (List.replicate count.toNat (gen itemsSchema name))

/-- ExampleGenerator._generate_object_example, with the recursive call to
generate_from_schema supplied as `gen`: required properties first, in
required-list order, then up to 3 non-required properties in dict order. -/
def generate_object_example (gen : Json → Option String → Json) (schema : Json) : Json :=
  let properties := objEntries (schema.getD "properties" (Json.obj []))
  let requiredFields := arrElems (schema.getD "required" (Json.arr []))
  let ex1 := requiredFields.foldl
    (fun ex r =>
      match r with
      | .str rn =>
        match properties.lookup rn with
        | some ps => updateField ex rn (gen ps (some rn))
        | none => ex
      | _ => ex)
    []
  let ex2 := (properties.foldl
    (fun acc p =>
      if !(requiredFields.contains (Json.str p.1)) && acc.2 < 3 then
        (updateField acc.1 p.1 (gen p.2 (some p.1)), acc.2 + 1)
      else acc)
    (ex1, (0 : Nat))).1
  Json.obj ex2

/-- The body of ExampleGenerator.generate_from_schema after the explicit
example check: enum first, then oneOf/anyOf, then allOf, then the type
dispatch. -/
def generate_dispatch (env : GenEnv) (gen : Json → Option String → Json) (schema : Json)
    (name : Option String) : Json :=
  let schemaType := schema.getD "type" (Json.str "string")
  let schemaFormat := schema.get? "format"
  let enumValues := schema.getD "enum" Json.null
  let typeDispatch :=
    if schemaType == Json.str "string" then
      Json.str (generate_string_example env schemaFormat name schema)
    else if schemaType == Json.str "integer" then
      Json.int (generate_integer_example env schemaFormat name)
    else if schemaType == Json.str "number" then
      Json.num (generate_number_example schemaFormat name)
    else if schemaType == Json.str "boolean" then Json.bool false
    else if schemaType == Json.str "array" then generate_array_example gen schema name
    else if schemaType == Json.str "object" then generate_object_example gen schema
    else Json.null
  let afterAllOf :=
    if schema.hasKey "allOf" then
      gen (mergeAllOf (arrElems (schema.getD "allOf" Json.null))) name
    else typeDispatch
  let afterOneAny :=
    if schema.hasKey "oneOf" || schema.hasKey "anyOf" then
      let options :=
        let o := schema.getD "oneOf" Json.null
        if isTruthy o then o else schema.getD "anyOf" Json.null
      if isTruthy options then
        match options with
        | .arr (o :: _) => gen o name
        | _ => Json.null
      else afterAllOf
    else afterAllOf
  if isTruthy enumValues then
    match enumValues with
    | .arr (v :: _) => v
    | _ => Json.null
  else afterOneAny

/-- ExampleGenerator.generate_from_schema.  A schema carrying an explicit
example returns it verbatim; otherwise one unit of fuel is spent and the
dispatch body runs with the recursive generator one fuel level down. -/
def generate_from_schema (env : GenEnv) : Nat → Json → Option String → Json
  | 0, schema, _ =>
    (match schema.get? "example" with
     | some ex => ex
     | none => Json.null)
  | fuel + 1, schema, name =>
    match schema.get? "example" with
    | some ex => ex
    | none => generate_dispatch env (fun s n => generate_from_schema env fuel s n) schema name

/-- The scan of one media object performed by
ExampleGenerator.extract_existing_example: 3.1-style named examples first,
then a 3.0-style example, then the schema-level example. -/
def exampleFromMediaObj (mobj : Json) : Option Json :=
  let examples := mobj.getD "examples" (Json.obj [])
  if isTruthy examples then
    some ((match examples with
           | .obj ((_, v) :: _) => v
           | _ => Json.null).getD "value" Json.null)
  else if mobj.hasKey "example" then some (mobj.getD "example" Json.null)
  else
    let schema := mobj.getD "schema" (Json.obj [])
    if schema.hasKey "example" then some (schema.getD "example" Json.null)
    else none

/-- ExampleGenerator.extract_existing_example; Python returns None when
nothing is found, modelled as `Json.null`. -/
def extract_existing_example (operation : Json) (location : String) : Json :=
  if location == "requestBody" then
    let requestBody := operation.getD "requestBody" (Json.obj [])
    let content := objEntries (requestBody.getD "content" (Json.obj []))
    match content.findSome? (fun mv => exampleFromMediaObj mv.2) with
    | some v => v
    | none => Json.null
  else if location == "responses" then
    let responses := objEntries (operation.getD "responses" (Json.obj []))
    match (["200", "201", "202"].findSome? fun sc =>
        match responses.lookup sc with
        | some resp =>
          (objEntries (resp.getD "content" (Json.obj []))).findSome?
            (fun mv => exampleFromMediaObj mv.2)
        | none => none) with
    | some v => v
    | none => Json.null
  else Json.null

/-- The per-endpoint record built by OpenAPIParser (class EndpointData).
Fields copied from the operation dict keep their Json values; the two string
fields hold strings the parser itself builds. -/
structure EndpointData where
  path : String := ""
  method : String := ""
  operation_id : Json := Json.str ""
  summary : Json := Json.str ""
  description : Json := Json.str ""
  tags : Json := Json.arr []
  path_parameters : List Json := []
  query_parameters : List Json := []
  header_parameters : List Json := []
  request_body_schema : Json := Json.null
  request_body_description : String := ""
  request_body_parameters : List Json := []
  request_body_example : Json := Json.null
  responses : List (String × Json) := []
  success_response_example : Json := Json.null
  success_status_code : Option String := none
deriving DecidableEq

/-- The state of an OpenAPIParser instance: the loaded spec dict, the oracle
for the impure generator leaves, and an abstraction of
markdownify(x, strip=[p]).strip() used for request-body descriptions. -/
structure ParserData where
  spec : Json
  env : GenEnv
  mdStrip : String → String

/-- OpenAPIParser._resolve_ref with its explicit max_depth argument: the
depth stub when the budget is exhausted, a generic object fallback for
non-components refs and unknown names, one budget unit per chained ref. -/
def resolve_ref (spec : Json) : Nat → String → Json
  | 0, _ =>
    Json.obj [("type", Json.str "object"),
      ("description", Json.str "(Max recursion depth reached)")]
  | d + 1, refPath =>
    if !(strStartsWith refPath "#/components/schemas/") then
      Json.obj [("type", Json.str "object")]
    else
      let schemaName := lastSeg refPath
      let componentsSchemas :=
        objEntries ((spec.getD "components" (Json.obj [])).getD "schemas" (Json.obj []))
      match componentsSchemas.lookup schemaName with
      | none => Json.obj [("type", Json.str "object")]
      | some schema =>
        if schema.hasKey "$ref" then resolve_ref spec d (asStr (schema.getD "$ref" Json.null))
        else schema

/-- OpenAPIParser._resolve_ref called with its default max_depth of 3, as
every call site in the parser does. -/
def resolve_ref_default (spec : Json) (refPath : String) : Json := resolve_ref spec 3 refPath

/-- resolve_ref instrumented with the number of recursive calls it makes. -/
def resolve_ref_steps (spec : Json) : Nat → String → Json × Nat
  | 0, _ =>
    (Json.obj [("type", Json.str "object"),
      ("description", Json.str "(Max recursion depth reached)")], 0)
  | d + 1, refPath =>
    if !(strStartsWith refPath "#/components/schemas/") then
      (Json.obj [("type", Json.str "object")], 0)
    else
      let schemaName := lastSeg refPath
      let componentsSchemas :=
        objEntries ((spec.getD "components" (Json.obj [])).getD "schemas" (Json.obj []))
      match componentsSchemas.lookup schemaName with
      | none => (Json.obj [("type", Json.str "object")], 0)
      | some schema =>
        if schema.hasKey "$ref" then
          let r := resolve_ref_steps spec d (asStr (schema.getD "$ref" Json.null))
          (r.1, r.2 + 1)
        else (schema, 0)

/-- The lightweight stub built for a ref whose path contains the _Nullable
marker: lines 204 to 206 and 272 to 279 of openapi_parser.py build this same
dict from the last path segment with every _Nullable occurrence removed. -/
def nullableStub (refPath : String) : Json :=
  Json.obj [("type", Json.str "object"),
    ("description",
      Json.str ("Optional " ++ strReplace (lastSeg refPath) "_Nullable" "" ++
        " object (nullable)"))]

/-- The schema normalization at the top of
OpenAPIParser._extract_parameter_data: a _Nullable ref becomes the stub, any
other unresolved ref becomes the generic object fallback (no resolution is
attempted for parameters). -/
def normalizeParamSchema (schema : Json) : Json :=
  if schema.hasKey "$ref" then
    let refPath := asStr (schema.getD "$ref" Json.null)
    if strContains refPath "_Nullable" then nullableStub refPath
    else Json.obj [("type", Json.str "object")]
  else schema

/-- The type string of a parameter table row: the schema type, with the
format appended in parentheses when a format is present.  Shared by
_extract_parameter_data and the request-body property loop, which repeat the
same four lines. -/
def displayType (schema : Json) : Json :=
  let paramType := schema.getD "type" (Json.str "string")
  let paramFormat := schema.getD "format" (Json.str "")
  if isTruthy paramFormat then
    Json.str (pyStr paramType ++ " (" ++ pyStr paramFormat ++ ")")
  else paramType

/-- The name argument the parser passes to the generator: param.get(name),
None when absent.  (A non-string name would make Python raise later.) -/
def paramName (param : Json) : Option String :=
  match param.get? "name" with
  | some (.str s) => some s
  | _ => none

/-- OpenAPIParser._extract_parameter_data: normalize the schema, then pick
the example by truthiness (parameter example, then schema example, then a
generated one), then build the row dict. -/
def extract_parameter_data (P : ParserData) (fuel : Nat) (param : Json) : Json :=
  let schema := normalizeParamSchema (param.getD "schema" (Json.obj []))
  let ex0 := param.getD "example" Json.null
  let ex1 :=
    if !(isTruthy ex0) && schema.hasKey "example" then schema.getD "example" Json.null
    else ex0
  let ex2 :=
    if !(isTruthy ex1) then generate_from_schema P.env fuel schema (paramName param)
    else ex1
  Json.obj [
    ("name", param.getD "name" (Json.str "unnamed")),
    ("type", displayType schema),
    ("required", param.getD "required" (Json.bool false)),
    ("description", param.getD "description" (Json.str "")),
    ("example", ex2),
    ("enum", schema.getD "enum" (Json.arr [])),
    ("default", schema.getD "default" Json.null)]

/-- OpenAPIParser._parse_parameters: route each parameter row into the list
matching its location. -/
def parse_parameters (P : ParserData) (fuel : Nat) (ep : EndpointData)
    (parameters : List Json) : EndpointData :=
  parameters.foldl
    (fun ep param =>
      let paramIn := param.getD "in" (Json.str "query")
      let paramData := extract_parameter_data P fuel param
      if paramIn == Json.str "path" then
        { ep with path_parameters := ep.path_parameters ++ [paramData] }
      else if paramIn == Json.str "query" then
        { ep with query_parameters := ep.query_parameters ++ [paramData] }
      else if paramIn == Json.str "header" then
        { ep with header_parameters := ep.header_parameters ++ [paramData] }
      else ep)
    ep

/-- The ref handling of the request-body property loop in
OpenAPIParser._parse_request_body: a _Nullable ref becomes the stub, any
other ref is resolved with the default depth budget. -/
def normalizePropSchema (P : ParserData) (propSchema : Json) : Json :=
  if propSchema.hasKey "$ref" then
    let refPath := asStr (propSchema.getD "$ref" Json.null)
    if strContains refPath "_Nullable" then nullableStub refPath
    else resolve_ref_default P.spec refPath
  else propSchema

/-- One row of endpoint.request_body_parameters, built by the property loop
of OpenAPIParser._parse_request_body. -/
def requestBodyParameterData (P : ParserData) (fuel : Nat) (requiredFields : Json)
    (pn : String) (propSchema : Json) : Json :=
  let ps := normalizePropSchema P propSchema
  let ex0 := ps.getD "example" Json.null
  let ex :=
    if !(isTruthy ex0) then generate_from_schema P.env fuel ps (some pn)
    else ex0
  Json.obj [
    ("name", Json.str pn),
    ("type", displayType ps),
    ("required", Json.bool ((arrElems requiredFields).contains (Json.str pn))),
    ("description", ps.getD "description" (Json.str "")),
    ("example", ex),
    ("enum", ps.getD "enum" (Json.arr []))]

/-- OpenAPIParser._parse_request_body: keep a truthy pre-extracted example,
process the first media type with a truthy schema (resolving a top-level ref
through _resolve_ref with no _Nullable check), convert its properties to
rows, and generate a full example when none survived the truthiness gate. -/
def parse_request_body (P : ParserData) (fuel : Nat) (ep : EndpointData)
    (requestBody : Json) (operation : Json) : EndpointData :=
  let existing := extract_existing_example operation "requestBody"
  let ep := if isTruthy existing then { ep with request_body_example := existing } else ep
  let content := objEntries (requestBody.getD "content" (Json.obj []))
  match content.find? (fun mv => isTruthy (mv.2.getD "schema" (Json.obj []))) with
  | none => ep
  | some mv =>
    let schema0 := mv.2.getD "schema" (Json.obj [])
    let ep := { ep with request_body_schema := schema0 }
    let schema :=
      if schema0.hasKey "$ref" then
        resolve_ref_default P.spec (asStr (schema0.getD "$ref" Json.null))
      else schema0
    let schemaDescription := schema.getD "description" (Json.str "")
    let ep :=
      if isTruthy schemaDescription then
        { ep with request_body_description := P.mdStrip (pyStr schemaDescription) }
      else ep
    let properties := objEntries (schema.getD "properties" (Json.obj []))
    let requiredFields := schema.getD "required" (Json.arr [])
    let ep := properties.foldl
      (fun ep p =>
        { ep with request_body_parameters :=
            ep.request_body_parameters ++ [requestBodyParameterData P fuel requiredFields p.1 p.2] })
      ep
    if !(isTruthy ep.request_body_example) then
      { ep with request_body_example := generate_from_schema P.env fuel schema none }
    else ep

/-- The example list collected for one response dict by
OpenAPIParser._parse_responses: named example values, else the single
example, else one example generated from the schema, per media type with a
truthy schema. -/
def responseExamples (env : GenEnv) (fuel : Nat) (response : Json) : List Json :=
  (objEntries (response.getD "content" (Json.obj []))).foldl
    (fun exs mv =>
      let schema := mv.2.getD "schema" (Json.obj [])
      if isTruthy schema then
        let examples := mv.2.getD "examples" (Json.obj [])
        if isTruthy examples then
          exs ++ (objEntries examples).map (fun ev => ev.2.getD "value" Json.null)
        else if mv.2.hasKey "example" then exs ++ [mv.2.getD "example" Json.null]
        else exs ++ [generate_from_schema env fuel schema none]
      else exs)
    []

/-- The body of the response loop of OpenAPIParser._parse_responses: record
the response row, and claim the success slot when the status starts with 2,
no truthy success example is held yet, and the example list is non-empty. -/
def responsesFoldStep (env : GenEnv) (fuel : Nat) (ep : EndpointData)
    (entry : String × Json) : EndpointData :=
  let exampleList := responseExamples env fuel entry.2
  let responseData := Json.obj [
    ("status_code", Json.str entry.1),
    ("description", entry.2.getD "description" (Json.str "")),
    ("examples", Json.arr exampleList)]
  let ep := { ep with responses := updateField ep.responses entry.1 responseData }
  if strStartsWith entry.1 "2" && !(isTruthy ep.success_response_example) then
    match exampleList with
    | e :: _ =>
      { ep with success_response_example := e, success_status_code := some entry.1 }
    | [] => ep
  else ep

/-- OpenAPIParser._parse_responses: pre-extract an existing success example,
scan the responses in document order, then, if no success status was set
during the scan, fall back to the first of 200, 201, 202, 204 present. -/
def parse_responses (env : GenEnv) (fuel : Nat) (ep : EndpointData)
    (operation : Json) : EndpointData :=
  let responses := objEntries (operation.getD "responses" (Json.obj []))
  let existingExample := extract_existing_example operation "responses"
  let ep :=
    if isTruthy existingExample then { ep with success_response_example := existingExample }
    else ep
  let ep := responses.foldl (responsesFoldStep env fuel) ep
  if optStrTruthy ep.success_status_code then ep
  else
    match ["200", "201", "202", "204"].find? (fun c => (ep.responses.lookup c).isSome) with
    | some c => { ep with success_status_code := some c }
    | none => ep

/-- OpenAPIParser._parse_endpoint. -/
def parse_endpoint (P : ParserData) (fuel : Nat) (path method : String)
    (operation : Json) (commonParams : List Json) : EndpointData :=
  let ep : EndpointData := {
    path := path, method := method,
    operation_id := operation.getD "operationId" (Json.str ""),
    summary := operation.getD "summary" (Json.str ""),
    description := operation.getD "description" (Json.str ""),
    tags := operation.getD "tags" (Json.arr []) }
  let allParams := commonParams ++ arrElems (operation.getD "parameters" (Json.arr []))
  let ep := parse_parameters P fuel ep allParams
  let ep :=
    if operation.hasKey "requestBody" then
      parse_request_body P fuel ep (operation.getD "requestBody" Json.null) operation
    else ep
  parse_responses P.env fuel ep operation

/-- The fixed method order OpenAPIParser.parse_all_endpoints scans within
each path item. -/
def httpMethods : List String := ["get", "post", "put", "delete", "patch", "options", "head"]

/-- OpenAPIParser.parse_all_endpoints: document order of the paths dict,
fixed method order inside each path item, methods absent from the item
skipped. -/
def parse_all_endpoints (P : ParserData) (fuel : Nat) : List EndpointData :=
  let paths := objEntries (P.spec.getD "paths" (Json.obj []))
  paths.flatMap (fun p =>
    let commonParams := arrElems (p.2.getD "parameters" (Json.arr []))
    (httpMethods.filter (fun m => p.2.hasKey m)).map
      (fun m => parse_endpoint P fuel p.1 m (p.2.getD m Json.null) commonParams))

/-- A concrete oracle used by the witness and counterexample theorems. -/
def envC : GenEnv where
  uuid := "00000000-0000-0000-0000-000000000000"
  nowIso := "2026-01-01T00:00:00Z"
  nowDate := "2026-01-01"
  nowTsMs := 1767225600000
  nowTsStr := "1767225600000"

/-- A concrete parser state used by the witness and counterexample theorems. -/
def parserC (spec : Json) : ParserData where
  spec := spec
  env := envC
  mdStrip := fun s => s

/-! Helper lemmas about the dict model. -/

theorem json_beq_str (a b : String) : (Json.str a == Json.str b) = (a == b) := by
  show Json.beq _ _ = _
  simp [Json.beq]

theorem lookup_updateField_self (m : List (String × Json)) (k : String) (v : Json) :
    (updateField m k v).lookup k = some v := by
  induction m with
  | nil => simp [updateField, List.lookup]
  | cons kv rest ih =>
    by_cases h : kv.1 = k
    · simp [updateField, h, List.lookup]
    · have hb : (kv.1 == k) = false := beq_eq_false_iff_ne.mpr h
      have hb2 : (k == kv.1) = false := beq_eq_false_iff_ne.mpr (Ne.symm h)
      simp [updateField, hb, hb2, List.lookup, ih]

theorem lookup_updateField_ne (m : List (String × Json)) (k k2 : String) (v : Json)
    (h : k ≠ k2) : (updateField m k2 v).lookup k = m.lookup k := by
  have hb : (k == k2) = false := beq_eq_false_iff_ne.mpr h
  induction m with
  | nil => simp [updateField, List.lookup, hb]
  | cons kv rest ih =>
    by_cases h2 : kv.1 = k2
    · subst h2
      simp [updateField, List.lookup, hb]
    · have hb2 : (kv.1 == k2) = false := beq_eq_false_iff_ne.mpr h2
      simp [updateField, hb2, List.lookup, ih]

theorem lookup_eq_none_of_notMem (m : List (String × Json)) (k : String)
    (h : k ∉ m.map Prod.fst) : m.lookup k = none := by
  induction m with
  | nil => simp [List.lookup]
  | cons kv rest ih =>
    simp only [List.map_cons, List.mem_cons] at h
    push_neg at h
    have hb : (k == kv.1) = false := beq_eq_false_iff_ne.mpr h.1
    simp [List.lookup, hb, ih h.2]

theorem updateField_append_of_notMem (m : List (String × Json)) (k : String) (v : Json)
    (h : k ∉ m.map Prod.fst) : updateField m k v = m ++ [(k, v)] := by
  induction m with
  | nil => simp [updateField]
  | cons kv rest ih =>
    simp only [List.map_cons, List.mem_cons] at h
    push_neg at h
    have hb : (kv.1 == k) = false := beq_eq_false_iff_ne.mpr (Ne.symm h.1)
    simp [updateField, hb, ih h.2]

theorem isSome_lookup_updateField (m : List (String × Json)) (k k2 : String) (v : Json) :
    ((updateField m k2 v).lookup k).isSome = ((m.lookup k).isSome || (k == k2)) := by
  by_cases h : k = k2
  · subst h
    simp [lookup_updateField_self]
  · have hb : (k == k2) = false := beq_eq_false_iff_ne.mpr h
    simp [lookup_updateField_ne m k k2 v h, hb]

/-! Helper lemmas unfolding generate_from_schema one step. -/

theorem generate_from_schema_succ (env : GenEnv) (fuel : Nat) (schema : Json)
    (name : Option String) (h : schema.get? "example" = none) :
    generate_from_schema env (fuel + 1) schema name =
      generate_dispatch env (fun s n => generate_from_schema env fuel s n) schema name := by
  simp [generate_from_schema, h]

theorem generate_dispatch_type (env : GenEnv) (gen : Json → Option String → Json)
    (schema : Json) (name : Option String)
    (henum : schema.get? "enum" = none)
    (hone : schema.get? "oneOf" = none)
    (hany : schema.get? "anyOf" = none)
    (hall : schema.get? "allOf" = none) :
    generate_dispatch env gen schema name =
      (let schemaType := schema.getD "type" (Json.str "string")
       let schemaFormat := schema.get? "format"
       if schemaType == Json.str "string" then
         Json.str (generate_string_example env schemaFormat name schema)
       else if schemaType == Json.str "integer" then
         Json.int (generate_integer_example env schemaFormat name)
       else if schemaType == Json.str "number" then
         Json.num (generate_number_example schemaFormat name)
       else if schemaType == Json.str "boolean" then Json.bool false
       else if schemaType == Json.str "array" then generate_array_example gen schema name
       else if schemaType == Json.str "object" then generate_object_example gen schema
       else Json.null) := by
  simp [generate_dispatch, Json.hasKey, Json.getD, henum, hone, hany, hall, isTruthy]

theorem generate_array_of_schema (env : GenEnv) (fuel : Nat) (schema : Json)
    (name : Option String)
    (hex : schema.get? "example" = none)
    (henum : schema.get? "enum" = none)
    (hone : schema.get? "oneOf" = none)
    (hany : schema.get? "anyOf" = none)
    (hall : schema.get? "allOf" = none)
    (htype : schema.get? "type" = some (Json.str "array")) :
    generate_from_schema env (fuel + 1) schema name =
      generate_array_example (fun s n => generate_from_schema env fuel s n) schema name := by
  rw [generate_from_schema_succ env fuel schema name hex,
    generate_dispatch_type env _ schema name henum hone hany hall]
  simp [Json.getD, htype, json_beq_str]

/-- Claim C9 (confirmed): a schema carrying an example key returns that value
verbatim, whatever it is, bypassing enum handling, composition keywords and
the type dispatch; those all sit behind the example check in
generate_from_schema. -/
theorem C9_example_verbatim (env : GenEnv) (fuel : Nat) (schema : Json) (name : Option String)
    (ex : Json) (h : schema.get? "example" = some ex) :
    generate_from_schema env fuel schema name = ex := by
  cases fuel <;> simp [generate_from_schema, h]

/-- Witness for C9 on the schema {example: {foo: 1}, type: string, enum: [2]}. -/
theorem C9_example_verbatim_witness :
    (Json.obj [("example", Json.obj [("foo", Json.int 1)]), ("type", Json.str "string"),
        ("enum", Json.arr [Json.int 2])]).get? "example" = some (Json.obj [("foo", Json.int 1)])
    ∧ generate_from_schema envC 3
        (Json.obj [("example", Json.obj [("foo", Json.int 1)]), ("type", Json.str "string"),
          ("enum", Json.arr [Json.int 2])]) none = Json.obj [("foo", Json.int 1)] :=
  ⟨by decide, C9_example_verbatim envC 3 _ none _ (by decide)⟩

/-- Claim C7 (confirmed): an array schema without example, enum or
composition keywords generates the items example repeated
min(max(minItems, 1), 2) times; with minItems = 10 that count is 2, with no
minItems it is 1. -/
theorem C7_array_example_count (env : GenEnv) (fuel : Nat) (schema : Json)
    (name : Option String)
    (hex : schema.get? "example" = none)
    (henum : schema.get? "enum" = none)
    (hone : schema.get? "oneOf" = none)
    (hany : schema.get? "anyOf" = none)
    (hall : schema.get? "allOf" = none)
    (htype : schema.get? "type" = some (Json.str "array")) :
    (∀ m : Int, schema.get? "minItems" = some (Json.int m) →
      generate_from_schema env (fuel + 1) schema name =
        Json.arr (List.replicate (min (max m 1) 2).toNat
          (generate_from_schema env fuel (schema.getD "items" (Json.obj [])) name)))
    ∧ (schema.get? "minItems" = none →
      generate_from_schema env (fuel + 1) schema name =
        Json.arr [generate_from_schema env fuel (schema.getD "items" (Json.obj [])) name]) := by
  rw [generate_array_of_schema env fuel schema name hex henum hone hany hall htype]
  constructor
  · intro m hm
    simp [generate_array_example, Json.getD, hm]
  · intro hm
    simp [generate_array_example, Json.getD, hm]

/-- Witness for C7: minItems 10 yields exactly 2 items, no minItems yields
exactly 1 item. -/
theorem C7_array_example_count_witness :
    generate_from_schema envC 2
      (Json.obj [("type", Json.str "array"), ("items", Json.obj [("type", Json.str "integer")]),
        ("minItems", Json.int 10)]) none = Json.arr [Json.int 42, Json.int 42]
    ∧ generate_from_schema envC 2
      (Json.obj [("type", Json.str "array"), ("items", Json.obj [("type", Json.str "integer")])])
        none = Json.arr [Json.int 42] := by
  constructor
  · exact (((C7_array_example_count envC 1 _ none (by decide) (by decide) (by decide) (by decide)
      (by decide) (by decide)).1 10 (by decide)).trans (by decide))
  · exact (((C7_array_example_count envC 1 _ none (by decide) (by decide) (by decide) (by decide)
      (by decide) (by decide)).2 (by decide)).trans (by decide))

/-- Claim C5 (confirmed): with a positive depth budget (every call site uses
the default budget of 3), a ref that does not start with the components
schemas prefix, or whose target name is missing from components.schemas,
resolves to the fallback schema {type: object}; the function is total, so no
exception can escape. -/
theorem C5_resolve_ref_fallback (spec : Json) (d : Nat) (refPath : String)
    (h : strStartsWith refPath "#/components/schemas/" = false
      ∨ (objEntries ((spec.getD "components" (Json.obj [])).getD "schemas"
          (Json.obj []))).lookup (lastSeg refPath) = none) :
    resolve_ref spec (d + 1) refPath = Json.obj [("type", Json.str "object")] := by
  rcases h with h | h
  · simp [resolve_ref, h]
  · by_cases hs : strStartsWith refPath "#/components/schemas/" = true
    · simp [resolve_ref, hs, h]
    · simp at hs
      simp [resolve_ref, hs]

/-- Witness for C5: a definitions-style ref and an unknown components name
both fall back to the generic object schema at the default budget. -/
theorem C5_resolve_ref_fallback_witness :
    resolve_ref (Json.obj []) 3 "#/definitions/Foo" = Json.obj [("type", Json.str "object")]
    ∧ resolve_ref (Json.obj [("components", Json.obj [("schemas", Json.obj [])])]) 3
        "#/components/schemas/Missing" = Json.obj [("type", Json.str "object")] :=
  ⟨C5_resolve_ref_fallback (Json.obj []) 2 "#/definitions/Foo" (Or.inl (by decide)),
   C5_resolve_ref_fallback (Json.obj [("components", Json.obj [("schemas", Json.obj [])])]) 2
     "#/components/schemas/Missing" (Or.inr (by decide))⟩

/-- Counterexample for C2: at an exhausted budget the code returns the stub
whose description reads "(Max recursion depth reached)" with a capital M,
not the lower-case text "(max recursion depth reached)" the claim quotes. -/
theorem C2_depth_stub_text_cex :
    resolve_ref (Json.obj []) 0 "#/components/schemas/X" =
      Json.obj [("type", Json.str "object"),
        ("description", Json.str "(Max recursion depth reached)")]
    ∧ resolve_ref (Json.obj []) 0 "#/components/schemas/X" ≠
      Json.obj [("type", Json.str "object"),
        ("description", Json.str "(max recursion depth reached)")] := by
  exact ⟨rfl, by decide⟩

/-- Claim C2 (corrected): for every budget d, _resolve_ref makes at most d
recursive steps; at budget 0 it returns the stub schema (with description
"(Max recursion depth reached)", capital M, which is the only deviation from
the claim text) instead of recursing or raising, and the default budget used
by every call site is 3. -/
theorem C2_resolve_ref_bounded (spec : Json) (d : Nat) (refPath : String) :
    (resolve_ref_steps spec d refPath).2 ≤ d
    ∧ (resolve_ref_steps spec d refPath).1 = resolve_ref spec d refPath
    ∧ resolve_ref spec 0 refPath =
        Json.obj [("type", Json.str "object"),
          ("description", Json.str "(Max recursion depth reached)")]
    ∧ resolve_ref_default spec refPath = resolve_ref spec 3 refPath := by
  refine ⟨?_, ?_, rfl, rfl⟩
  · induction d generalizing refPath with
    | zero => simp [resolve_ref_steps]
    | succ d ih =>
      unfold resolve_ref_steps
      split
      · simp
      · dsimp only
        split
        · simp
        · split
          · exact Nat.succ_le_succ (ih _)
          · simp
  · induction d generalizing refPath with
    | zero => simp [resolve_ref_steps, resolve_ref]
    | succ d ih =>
      unfold resolve_ref_steps resolve_ref
      split
      · simp
      · dsimp only
        split
        · simp
        · split
          · exact ih _
          · simp

/-- Counterexample for C1: _resolve_ref applies no _Nullable shortcut.  With
Widget_Nullable present in components.schemas with its full properties, the
resolver returns the full schema, properties included, not the lightweight
stub, so the shortcut is not applied inside reference resolution. -/
theorem C1_resolver_ignores_nullable_cex :
    resolve_ref
      (Json.obj [("components", Json.obj [("schemas", Json.obj [("Widget_Nullable",
        Json.obj [("type", Json.str "object"),
          ("properties", Json.obj [("x", Json.obj [("type", Json.str "string")])])])])])])
      3 "#/components/schemas/Widget_Nullable" =
      Json.obj [("type", Json.str "object"),
        ("properties", Json.obj [("x", Json.obj [("type", Json.str "string")])])]
    ∧ resolve_ref
      (Json.obj [("components", Json.obj [("schemas", Json.obj [("Widget_Nullable",
        Json.obj [("type", Json.str "object"),
          ("properties", Json.obj [("x", Json.obj [("type", Json.str "string")])])])])])])
      3 "#/components/schemas/Widget_Nullable" ≠
      nullableStub "#/components/schemas/Widget_Nullable"
    ∧ strContains "#/components/schemas/Widget_Nullable" "_Nullable" = true := by
  exact ⟨rfl, by decide, by decide⟩

/-- Claim C1 (corrected): the _Nullable shortcut is applied in the two
extraction sites, parameter schemas and request-body properties, where a
nullable ref becomes the stub {type: object, description: "Optional (Base)
object (nullable)"} without expanding the base schema; _resolve_ref itself
performs no such check and returns the stored components entry unchanged for
any resolvable name, nullable or not. -/
theorem C1_nullable_stub_sites :
    (∀ schema refPath, schema.get? "$ref" = some (Json.str refPath) →
        strContains refPath "_Nullable" = true →
        normalizeParamSchema schema = nullableStub refPath)
    ∧ (∀ P propSchema refPath, propSchema.get? "$ref" = some (Json.str refPath) →
        strContains refPath "_Nullable" = true →
        normalizePropSchema P propSchema = nullableStub refPath)
    ∧ (∀ spec d refPath entry,
        strStartsWith refPath "#/components/schemas/" = true →
        (objEntries ((spec.getD "components" (Json.obj [])).getD "schemas"
            (Json.obj []))).lookup (lastSeg refPath) = some entry →
        entry.hasKey "$ref" = false →
        resolve_ref spec (d + 1) refPath = entry) := by
  refine ⟨?_, ?_, ?_⟩
  · intro schema refPath h hn
    simp [normalizeParamSchema, Json.hasKey, Json.getD, h, asStr, hn]
  · intro P propSchema refPath h hn
    simp [normalizePropSchema, Json.hasKey, Json.getD, h, asStr, hn]
  · intro spec d refPath entry hs hl hr
    simp [resolve_ref, hs, hl, hr]

/-- Witness for C1: the stub at both extraction sites for a nullable ref,
and plain resolution of a nullable name through the resolver. -/
theorem C1_nullable_stub_sites_witness :
    normalizeParamSchema (Json.obj [("$ref", Json.str "#/components/schemas/Widget_Nullable")]) =
      Json.obj [("type", Json.str "object"),
        ("description", Json.str "Optional Widget object (nullable)")]
    ∧ normalizePropSchema (parserC (Json.obj []))
        (Json.obj [("$ref", Json.str "#/components/schemas/Widget_Nullable")]) =
      Json.obj [("type", Json.str "object"),
        ("description", Json.str "Optional Widget object (nullable)")]
    ∧ resolve_ref
        (Json.obj [("components", Json.obj [("schemas", Json.obj [("Widget_Nullable",
          Json.obj [("type", Json.str "object"),
            ("properties", Json.obj [("x", Json.obj [("type", Json.str "string")])])])])])])
        3 "#/components/schemas/Widget_Nullable" =
      Json.obj [("type", Json.str "object"),
        ("properties", Json.obj [("x", Json.obj [("type", Json.str "string")])])] := by
  refine ⟨?_, ?_, ?_⟩
  · exact (C1_nullable_stub_sites.1 _ "#/components/schemas/Widget_Nullable"
      (by decide) (by decide)).trans (by decide)
  · exact (C1_nullable_stub_sites.2.1 _ _ "#/components/schemas/Widget_Nullable"
      (by decide) (by decide)).trans (by decide)
  · exact C1_nullable_stub_sites.2.2 _ 2 _ _ (by decide) (by decide) (by decide)

/-! Helper lemmas for the example truthiness gates. -/

theorem lookup_param_row_example (a b c d2 e f g : Json) :
    (Json.obj [("name", a), ("type", b), ("required", c), ("description", d2),
      ("example", e), ("enum", f), ("default", g)]).get? "example" = some e := by
  simp [Json.get?, List.lookup]

theorem lookup_body_row_example (a b c d2 e f : Json) :
    (Json.obj [("name", a), ("type", b), ("required", c), ("description", d2),
      ("example", e), ("enum", f)]).get? "example" = some e := by
  simp [Json.get?, List.lookup]

theorem fold_rbp_example (P : ParserData) (fuel : Nat) (requiredFields : Json) :
    ∀ (props : List (String × Json)) (ep : EndpointData),
      (props.foldl
        (fun ep p =>
          { ep with request_body_parameters :=
              ep.request_body_parameters ++
                [requestBodyParameterData P fuel requiredFields p.1 p.2] })
        ep).request_body_example = ep.request_body_example := by
  intro props
  induction props with
  | nil => intro ep; rfl
  | cons p rest ih => intro ep; simp [List.foldl_cons, ih]

/-- Counterexample for C10: a falsy explicit example can survive.  A
request-body property schema carrying example "" fails the truthiness gate,
so the extractor calls the generator, but generate_from_schema returns the
schema-level example verbatim, and the empty string lands in the row
unchanged. -/
theorem C10_falsy_schema_example_survives_cex :
    (requestBodyParameterData (parserC (Json.obj [])) 1 (Json.arr []) "note"
      (Json.obj [("type", Json.str "string"),
        ("example", Json.str "")])).get? "example" = some (Json.str "")
    ∧ isTruthy (Json.str "") = false := by
  exact ⟨by decide, by decide⟩

/-- Claim C10 (corrected): the extractor gates examples on truthiness, not
presence.  A falsy explicit example (0, False, empty string, empty list,
empty dict) fails the gate, and the extractor falls through: a parameter row
records the schema example when that is itself truthy and otherwise a
generator call, a request-body property row records a generator call, and a
falsy pre-extracted request-body example is replaced by the example
generated from the resolved schema.  The fall-through is genuine replacement
only for examples the schema itself does not carry: the generator returns a
schema-level example verbatim, so a falsy schema-level example comes back
unchanged (see the counterexample). -/
theorem C10_falsy_example_regenerated :
    (∀ (P : ParserData) (fuel : Nat) (param : Json),
      isTruthy (param.getD "example" Json.null) = false →
      isTruthy ((normalizeParamSchema (param.getD "schema" (Json.obj []))).getD "example"
        Json.null) = false →
      (extract_parameter_data P fuel param).get? "example" =
        some (generate_from_schema P.env fuel
          (normalizeParamSchema (param.getD "schema" (Json.obj []))) (paramName param)))
    ∧ (∀ (P : ParserData) (fuel : Nat) (requiredFields : Json) (pn : String) (ps0 : Json),
      isTruthy ((normalizePropSchema P ps0).getD "example" Json.null) = false →
      (requestBodyParameterData P fuel requiredFields pn ps0).get? "example" =
        some (generate_from_schema P.env fuel (normalizePropSchema P ps0) (some pn)))
    ∧ (∀ (P : ParserData) (fuel : Nat) (ep : EndpointData) (rb op : Json)
        (mv : String × Json),
      isTruthy (extract_existing_example op "requestBody") = false →
      ep.request_body_example = Json.null →
      (objEntries (rb.getD "content" (Json.obj []))).find?
          (fun mv => isTruthy (mv.2.getD "schema" (Json.obj []))) = some mv →
      (parse_request_body P fuel ep rb op).request_body_example =
        generate_from_schema P.env fuel
          (let schema0 := mv.2.getD "schema" (Json.obj [])
           if schema0.hasKey "$ref" then
             resolve_ref_default P.spec (asStr (schema0.getD "$ref" Json.null))
           else schema0) none) := by
  refine ⟨?_, ?_, ?_⟩
  · intro P fuel param h0 h1
    unfold extract_parameter_data
    rw [lookup_param_row_example]
    by_cases hk :
        (normalizeParamSchema (param.getD "schema" (Json.obj []))).hasKey "example" = true
    · simp [h0, h1, hk]
    · simp only [Bool.not_eq_true] at hk
      simp [h0, hk]
  · intro P fuel requiredFields pn ps0 h
    unfold requestBodyParameterData
    rw [lookup_body_row_example]
    simp [h]
  · intro P fuel ep rb op mv hex hep hfind
    unfold parse_request_body
    simp only [hex, hfind]
    by_cases hd : isTruthy ((if (mv.2.getD "schema" (Json.obj [])).hasKey "$ref" = true then
        resolve_ref_default P.spec (asStr ((mv.2.getD "schema" (Json.obj [])).getD "$ref"
          Json.null))
      else mv.2.getD "schema" (Json.obj [])).getD "description" (Json.str "")) = true
    · simp only [hd]
      rw [fold_rbp_example]
      simp [hep, isTruthy]
    · simp only [Bool.not_eq_true] at hd
      simp only [hd]
      rw [fold_rbp_example]
      simp [hep, isTruthy]

/-- Witness for C10: an explicit example 0 on an integer parameter is
replaced by the generated 10, a string property without an example gets the
generated example-string through the same gate, and a request body with no
truthy existing example gets the generated 42. -/
theorem C10_falsy_example_regenerated_witness :
    (extract_parameter_data (parserC (Json.obj [])) 1
        (Json.obj [("name", Json.str "limit"),
          ("schema", Json.obj [("type", Json.str "integer")]),
          ("example", Json.int 0)])).get? "example" = some (Json.int 10)
    ∧ (requestBodyParameterData (parserC (Json.obj [])) 1 (Json.arr []) "note"
        (Json.obj [("type", Json.str "string")])).get? "example" =
          some (Json.str "example-string")
    ∧ (parse_request_body (parserC (Json.obj [])) 1 {}
        (Json.obj [("content", Json.obj [("application/json",
          Json.obj [("schema", Json.obj [("type", Json.str "integer")])])])])
        (Json.obj [])).request_body_example = Json.int 42 := by
  refine ⟨?_, ?_, ?_⟩
  · exact (C10_falsy_example_regenerated.1 (parserC (Json.obj [])) 1 _
      (by decide) (by decide)).trans (by decide)
  · exact (C10_falsy_example_regenerated.2.1 (parserC (Json.obj [])) 1 (Json.arr []) "note" _
      (by decide)).trans (by decide)
  · exact (C10_falsy_example_regenerated.2.2 (parserC (Json.obj [])) 1 {} _ _
      ("application/json", Json.obj [("schema", Json.obj [("type", Json.str "integer")])])
      (by decide) (by decide) (by decide)).trans (by decide)

/-! Helper lemmas for the allOf merge. -/

theorem get?_obj_lookup (m : Json) (k : String) (v : Json) (h : m.get? k = some v) :
    (objEntries m).lookup k = some v := by
  cases m <;> simp_all [Json.get?, objEntries]

theorem lookup_dictUpdate (ps : List (String × Json)) :
    ∀ (cur : List (String × Json)) (k : String), (ps.map Prod.fst).Nodup →
      (dictUpdate cur ps).lookup k = (ps.lookup k).or (cur.lookup k) := by
  induction ps with
  | nil => intro cur k _; simp [dictUpdate, List.lookup]
  | cons p rest ih =>
    intro cur k hnd
    simp only [List.map_cons, List.nodup_cons] at hnd
    have step : dictUpdate cur (p :: rest) = dictUpdate (updateField cur p.1 p.2) rest := by
      simp [dictUpdate, List.foldl_cons]
    rw [step, ih _ k hnd.2]
    by_cases hk : k = p.1
    · subst hk
      have hrest : rest.lookup p.1 = none :=
        lookup_eq_none_of_notMem rest p.1 (by simpa using hnd.1)
      simp [List.lookup, hrest, lookup_updateField_self]
    · have hb : (k == p.1) = false := beq_eq_false_iff_ne.mpr hk
      simp [List.lookup, hb, lookup_updateField_ne cur k p.1 p.2 hk]

theorem mergeOtherStep_lookup_preserved (k : String)
    (hp : k = "properties" ∨ k = "required") (s : Json) (m : List (String × Json)) :
    (mergeOtherStep m s).lookup k = m.lookup k := by
  unfold mergeOtherStep
  generalize objEntries s = entries
  induction entries generalizing m with
  | nil => rfl
  | cons e rest ih =>
    rw [List.foldl_cons]
    by_cases he : (e.1 == "properties" || e.1 == "required") = true
    · simp only [he, if_true]
      exact ih m
    · simp only [he, if_false, Bool.false_eq_true]
      have hne : k ≠ e.1 := by
        simp only [Bool.or_eq_true, beq_iff_eq] at he
        push_neg at he
        rcases hp with h | h <;> subst h
        · exact fun hq => he.1 hq.symm
        · exact fun hq => he.2 hq.symm
      rw [ih, lookup_updateField_ne m k e.1 e.2 hne]

theorem foldOther_lookup_of_notMem :
    ∀ (entries : List (String × Json)) (m : List (String × Json)) (k : String),
      k ∉ entries.map Prod.fst →
      ((entries.foldl
        (fun m kv =>
          if kv.1 == "properties" || kv.1 == "required" then m
          else updateField m kv.1 kv.2) m).lookup k) = m.lookup k := by
  intro entries
  induction entries with
  | nil => intro m k _; rfl
  | cons e rest ih =>
    intro m k hk
    simp only [List.map_cons, List.mem_cons] at hk
    push_neg at hk
    rw [List.foldl_cons]
    by_cases he : (e.1 == "properties" || e.1 == "required") = true
    · simp only [he, if_true]
      exact ih m k hk.2
    · simp only [he, if_false, Bool.false_eq_true]
      rw [ih _ k hk.2, lookup_updateField_ne m k e.1 e.2 hk.1]

theorem mergeOtherStep_lookup_found (s : Json) (m : List (String × Json)) (k : String)
    (v : Json) (hnd : ((objEntries s).map Prod.fst).Nodup) (hv : s.get? k = some v)
    (hkp : k ≠ "properties") (hkr : k ≠ "required") :
    (mergeOtherStep m s).lookup k = some v := by
  unfold mergeOtherStep
  have hl : (objEntries s).lookup k = some v := get?_obj_lookup s k v hv
  clear hv
  generalize hE : objEntries s = entries at hl hnd
  clear hE
  induction entries generalizing m with
  | nil => simp [List.lookup] at hl
  | cons e rest ih =>
    simp only [List.map_cons, List.nodup_cons] at hnd
    rw [List.foldl_cons]
    by_cases hk : k = e.1
    · subst hk
      have he : (e.1 == "properties" || e.1 == "required") = false := by
        simp [beq_eq_false_iff_ne, hkp, hkr]
      simp only [he, if_false, Bool.false_eq_true]
      simp [List.lookup] at hl
      rw [foldOther_lookup_of_notMem rest _ e.1 hnd.1, lookup_updateField_self m e.1 e.2, hl]
    · have hb : (k == e.1) = false := beq_eq_false_iff_ne.mpr hk
      simp only [List.lookup, hb] at hl
      by_cases he : (e.1 == "properties" || e.1 == "required") = true
      · simp only [he, if_true]
        exact ih m hl hnd.2
      · simp only [he, if_false, Bool.false_eq_true]
        exact ih _ hl hnd.2

theorem mergePropsStep_lookup_self (m : List (String × Json)) (s : Json)
    (hk : s.hasKey "properties" = true) :
    (mergePropsStep m s).lookup "properties" =
      some (Json.obj (dictUpdate (objEntries ((m.lookup "properties").getD (Json.obj [])))
        (objEntries (s.getD "properties" (Json.obj []))))) := by
  unfold mergePropsStep
  rw [hk]
  simp [lookup_updateField_self]

theorem mergePropsStep_lookup_ne (m : List (String × Json)) (s : Json) (k : String)
    (h : k ≠ "properties") :
    (mergePropsStep m s).lookup k = m.lookup k := by
  unfold mergePropsStep
  by_cases hk : s.hasKey "properties" = true
  · rw [hk]
    simp [lookup_updateField_ne _ k "properties" _ h]
  · simp only [Bool.not_eq_true] at hk
    rw [hk]
    simp

theorem mergeRequiredStep_lookup_self (m : List (String × Json)) (s : Json)
    (hk : s.hasKey "required" = true) :
    (mergeRequiredStep m s).lookup "required" =
      some (Json.arr (arrElems ((m.lookup "required").getD (Json.arr [])) ++
        arrElems (s.getD "required" (Json.arr [])))) := by
  unfold mergeRequiredStep
  rw [hk]
  simp [lookup_updateField_self]

theorem mergeRequiredStep_lookup_ne (m : List (String × Json)) (s : Json) (k : String)
    (h : k ≠ "required") :
    (mergeRequiredStep m s).lookup k = m.lookup k := by
  unfold mergeRequiredStep
  by_cases hk : s.hasKey "required" = true
  · rw [hk]
    simp [lookup_updateField_ne _ k "required" _ h]
  · simp only [Bool.not_eq_true] at hk
    rw [hk]
    simp

theorem mergeAllOfList_append (ms : List Json) (m2 : Json) :
    mergeAllOfList (ms ++ [m2]) = mergeStep (mergeAllOfList ms) m2 := by
  simp [mergeAllOfList, List.foldl_append]

theorem lookup_isSome_of_mem_keys :
    ∀ (entries : List (String × Json)) (k : String),
      k ∈ entries.map Prod.fst → (entries.lookup k).isSome = true := by
  intro entries
  induction entries with
  | nil => intro k h; simp at h
  | cons e rest ih =>
    intro k h
    simp only [List.map_cons, List.mem_cons] at h
    by_cases hk : k = e.1
    · subst hk
      simp [List.lookup]
    · have hb : (k == e.1) = false := beq_eq_false_iff_ne.mpr hk
      simp only [List.lookup, hb]
      exact ih k (h.resolve_left hk)

/-- Claim C8 (confirmed): a schema with allOf is generated by first merging
the member schemas and recursing on the merged schema; in the merge, later
member properties dicts are dict-updated into the accumulated properties
(later bindings win over earlier ones for the same property), later member
required lists are appended to the accumulated required list, and every
other (non-collection) field of a later member overwrites the accumulated
binding.  The merge is a pure function of its arguments in this embedding,
which is faithful: the Python builds a fresh dict and only reads the
members. -/
theorem C8_all_of_merge :
    (∀ (env : GenEnv) (fuel : Nat) (schema : Json) (name : Option String) (members : List Json),
      schema.get? "example" = none →
      schema.get? "enum" = none →
      schema.get? "oneOf" = none →
      schema.get? "anyOf" = none →
      schema.get? "allOf" = some (Json.arr members) →
      generate_from_schema env (fuel + 1) schema name =
        generate_from_schema env fuel (mergeAllOf members) name)
    ∧ (∀ (ms : List Json) (m2 : Json),
      mergeAllOfList (ms ++ [m2]) = mergeStep (mergeAllOfList ms) m2)
    ∧ (∀ (A : List (String × Json)) (m2 : Json) (ps : List (String × Json)) (k : String),
      m2.get? "properties" = some (Json.obj ps) → (ps.map Prod.fst).Nodup →
      (objEntries (((mergeStep A m2).lookup "properties").getD (Json.obj []))).lookup k =
        (ps.lookup k).or
          ((objEntries ((A.lookup "properties").getD (Json.obj []))).lookup k))
    ∧ (∀ (A : List (String × Json)) (m2 : Json) (rs : List Json),
      m2.get? "required" = some (Json.arr rs) →
      arrElems (((mergeStep A m2).lookup "required").getD (Json.arr [])) =
        arrElems ((A.lookup "required").getD (Json.arr [])) ++ rs)
    ∧ (∀ (A : List (String × Json)) (m2 : Json) (k : String) (v : Json),
      k ≠ "properties" → k ≠ "required" →
      m2.get? k = some v → ((objEntries m2).map Prod.fst).Nodup →
      (mergeStep A m2).lookup k = some v)
    ∧ (∀ (A : List (String × Json)) (m2 : Json) (k : String),
      k ≠ "properties" → k ≠ "required" →
      (objEntries m2).lookup k = none →
      (mergeStep A m2).lookup k = A.lookup k) := by
  refine ⟨?_, mergeAllOfList_append, ?_, ?_, ?_, ?_⟩
  · intro env fuel schema name members hex henum hone hany hall
    rw [generate_from_schema_succ env fuel schema name hex]
    simp [generate_dispatch, Json.hasKey, Json.getD, henum, hone, hany, hall, isTruthy,
      arrElems]
  · intro A m2 ps k hp hnd
    have hk : m2.hasKey "properties" = true := by simp [Json.hasKey, hp]
    unfold mergeStep
    rw [mergeOtherStep_lookup_preserved "properties" (Or.inl rfl),
      mergeRequiredStep_lookup_ne _ _ "properties" (by decide),
      mergePropsStep_lookup_self A m2 hk]
    simp only [Json.getD, hp, Option.getD_some, objEntries]
    rw [lookup_dictUpdate ps _ k hnd]
  · intro A m2 rs hp
    have hk : m2.hasKey "required" = true := by simp [Json.hasKey, hp]
    unfold mergeStep
    rw [mergeOtherStep_lookup_preserved "required" (Or.inr rfl),
      mergeRequiredStep_lookup_self _ m2 hk,
      mergePropsStep_lookup_ne A m2 "required" (by decide)]
    simp [Json.getD, hp, arrElems]
  · intro A m2 k v hkp hkr hv hnd
    unfold mergeStep
    exact mergeOtherStep_lookup_found m2 _ k v hnd hv hkp hkr
  · intro A m2 k hkp hkr hv
    have hnm : k ∉ (objEntries m2).map Prod.fst := by
      intro hmem
      have := lookup_isSome_of_mem_keys (objEntries m2) k hmem
      rw [hv] at this
      simp at this
    unfold mergeStep mergeOtherStep
    rw [foldOther_lookup_of_notMem (objEntries m2) _ k hnm,
      mergeRequiredStep_lookup_ne _ m2 k hkr,
      mergePropsStep_lookup_ne A m2 k hkp]

/-- Witness for C8 on two members declaring properties p (integer, required)
and q (boolean, required). -/
theorem C8_all_of_merge_witness :
    generate_from_schema envC 3
      (Json.obj [("allOf", Json.arr [
        Json.obj [("type", Json.str "object"),
          ("properties", Json.obj [("p", Json.obj [("type", Json.str "integer")])]),
          ("required", Json.arr [Json.str "p"])],
        Json.obj [("type", Json.str "object"),
          ("properties", Json.obj [("q", Json.obj [("type", Json.str "boolean")])]),
          ("required", Json.arr [Json.str "q"])]])]) none =
      Json.obj [("p", Json.int 42), ("q", Json.bool false)]
    ∧ mergeAllOfList
        ([Json.obj [("type", Json.str "object"),
          ("properties", Json.obj [("p", Json.obj [("type", Json.str "integer")])]),
          ("required", Json.arr [Json.str "p"])]] ++
          [Json.obj [("type", Json.str "object"),
            ("properties", Json.obj [("q", Json.obj [("type", Json.str "boolean")])]),
            ("required", Json.arr [Json.str "q"])]]) =
      mergeStep
        (mergeAllOfList [Json.obj [("type", Json.str "object"),
          ("properties", Json.obj [("p", Json.obj [("type", Json.str "integer")])]),
          ("required", Json.arr [Json.str "p"])]])
        (Json.obj [("type", Json.str "object"),
          ("properties", Json.obj [("q", Json.obj [("type", Json.str "boolean")])]),
          ("required", Json.arr [Json.str "q"])])
    ∧ (objEntries (((mergeStep
        (mergeAllOfList [Json.obj [("type", Json.str "object"),
          ("properties", Json.obj [("p", Json.obj [("type", Json.str "integer")])]),
          ("required", Json.arr [Json.str "p"])]])
        (Json.obj [("type", Json.str "object"),
          ("properties", Json.obj [("q", Json.obj [("type", Json.str "boolean")])]),
          ("required", Json.arr [Json.str "q"])])).lookup "properties").getD
            (Json.obj []))).lookup "q" = some (Json.obj [("type", Json.str "boolean")])
    ∧ arrElems (((mergeStep [("required", Json.arr [Json.str "p"])]
        (Json.obj [("required", Json.arr [Json.str "q"])])).lookup "required").getD
          (Json.arr [])) = [Json.str "p", Json.str "q"]
    ∧ (mergeStep [("type", Json.str "object")]
        (Json.obj [("type", Json.str "integer")])).lookup "type" = some (Json.str "integer")
    ∧ (mergeStep [("title", Json.str "t")]
        (Json.obj [("description", Json.str "d")])).lookup "title" = some (Json.str "t") := by
  refine ⟨?_, ?_, ?_, ?_, ?_, ?_⟩
  · exact (C8_all_of_merge.1 envC 2 _ none
      [Json.obj [("type", Json.str "object"),
        ("properties", Json.obj [("p", Json.obj [("type", Json.str "integer")])]),
        ("required", Json.arr [Json.str "p"])],
       Json.obj [("type", Json.str "object"),
        ("properties", Json.obj [("q", Json.obj [("type", Json.str "boolean")])]),
        ("required", Json.arr [Json.str "q"])]]
      (by decide) (by decide) (by decide) (by decide) (by decide)).trans (by decide)
  · exact C8_all_of_merge.2.1 _ _
  · exact (C8_all_of_merge.2.2.1 _ _ [("q", Json.obj [("type", Json.str "boolean")])] "q"
      (by decide) (by decide)).trans (by decide)
  · exact (C8_all_of_merge.2.2.2.1 _ _ [Json.str "q"] (by decide)).trans (by decide)
  · exact C8_all_of_merge.2.2.2.2.1 _ _ "type" (Json.str "integer") (by decide) (by decide)
      (by decide) (by decide)
  · exact (C8_all_of_merge.2.2.2.2.2 _ _ "title" (by decide) (by decide)
      (by decide)).trans (by decide)

/-! Helper lemmas showing the endpoint pipeline never touches path or
method after parse_endpoint sets them. -/

theorem foldl_preserves_pm {α : Type} {f : EndpointData → α → EndpointData}
    (hf : ∀ ep a, (f ep a).path = ep.path ∧ (f ep a).method = ep.method) :
    ∀ (l : List α) (ep : EndpointData),
      ((l.foldl f ep).path = ep.path ∧ (l.foldl f ep).method = ep.method) := by
  intro l
  induction l with
  | nil => intro ep; exact ⟨rfl, rfl⟩
  | cons a rest ih =>
    intro ep
    rw [List.foldl_cons]
    exact ⟨(ih (f ep a)).1.trans (hf ep a).1, (ih (f ep a)).2.trans (hf ep a).2⟩

theorem parse_parameters_pm (P : ParserData) (fuel : Nat) (ps : List Json)
    (ep : EndpointData) :
    (parse_parameters P fuel ep ps).path = ep.path ∧
      (parse_parameters P fuel ep ps).method = ep.method := by
  unfold parse_parameters
  apply foldl_preserves_pm
  intro ep param
  dsimp only
  split
  · exact ⟨rfl, rfl⟩
  · split
    · exact ⟨rfl, rfl⟩
    · split
      · exact ⟨rfl, rfl⟩
      · exact ⟨rfl, rfl⟩

theorem parse_request_body_pm (P : ParserData) (fuel : Nat) (rb op : Json)
    (ep : EndpointData) :
    (parse_request_body P fuel ep rb op).path = ep.path ∧
      (parse_request_body P fuel ep rb op).method = ep.method := by
  unfold parse_request_body
  have hfold : ∀ (props : List (String × Json)) (requiredFields : Json) (ep : EndpointData),
      ((props.foldl
        (fun ep p =>
          { ep with request_body_parameters :=
              ep.request_body_parameters ++
                [requestBodyParameterData P fuel requiredFields p.1 p.2] })
        ep).path = ep.path ∧
       (props.foldl
        (fun ep p =>
          { ep with request_body_parameters :=
              ep.request_body_parameters ++
                [requestBodyParameterData P fuel requiredFields p.1 p.2] })
        ep).method = ep.method) := by
    intro props requiredFields
    apply foldl_preserves_pm
    intro ep p
    exact ⟨rfl, rfl⟩
  dsimp only
  repeat' split
  all_goals
    first
      | exact ⟨rfl, rfl⟩
      | exact ⟨(hfold _ _ _).1, (hfold _ _ _).2⟩

theorem responsesFoldStep_pm (env : GenEnv) (fuel : Nat) (ep : EndpointData)
    (e : String × Json) :
    (responsesFoldStep env fuel ep e).path = ep.path ∧
      (responsesFoldStep env fuel ep e).method = ep.method := by
  unfold responsesFoldStep
  dsimp only
  repeat' split
  all_goals exact ⟨rfl, rfl⟩

theorem parse_responses_pm (env : GenEnv) (fuel : Nat) (op : Json) (ep : EndpointData) :
    (parse_responses env fuel ep op).path = ep.path ∧
      (parse_responses env fuel ep op).method = ep.method := by
  unfold parse_responses
  dsimp only
  have hfold := foldl_preserves_pm (responsesFoldStep_pm env fuel)
  repeat' split
  all_goals exact ⟨(hfold _ _).1, (hfold _ _).2⟩

theorem parse_endpoint_pm (P : ParserData) (fuel : Nat) (path method : String)
    (op : Json) (common : List Json) :
    (parse_endpoint P fuel path method op common).path = path ∧
      (parse_endpoint P fuel path method op common).method = method := by
  unfold parse_endpoint
  dsimp only
  constructor
  · rw [(parse_responses_pm _ _ _ _).1]
    split
    · rw [(parse_request_body_pm _ _ _ _ _).1, (parse_parameters_pm _ _ _ _).1]
    · rw [(parse_parameters_pm _ _ _ _).1]
  · rw [(parse_responses_pm _ _ _ _).2]
    split
    · rw [(parse_request_body_pm _ _ _ _ _).2, (parse_parameters_pm _ _ _ _).2]
    · rw [(parse_parameters_pm _ _ _ _).2]

/-- Claim C4 (confirmed): parse_all_endpoints emits endpoints in document
order of the paths dict and, within each path, in the fixed method order
get, post, put, delete, patch, options, head, skipping absent methods; the
path and method of each emitted endpoint are exactly those of its position
in that enumeration, so the parser applies no re-sorting of any kind. -/
theorem C4_endpoint_order (P : ParserData) (fuel : Nat) :
    (parse_all_endpoints P fuel).map (fun e => (e.path, e.method)) =
      (objEntries (P.spec.getD "paths" (Json.obj []))).flatMap
        (fun p => (httpMethods.filter (fun m => p.2.hasKey m)).map (fun m => (p.1, m))) := by
  unfold parse_all_endpoints
  generalize objEntries (P.spec.getD "paths" (Json.obj [])) = paths
  induction paths with
  | nil => rfl
  | cons p rest ih =>
    simp only [List.flatMap_cons, List.map_append, ih]
    congr 1
    rw [List.map_map]
    apply List.map_congr_left
    intro m hm
    simp only [Function.comp_apply]
    exact Prod.ext (parse_endpoint_pm P fuel p.1 m _ _).1 (parse_endpoint_pm P fuel p.1 m _ _).2

/-! Helper lemmas for object-example generation. -/

theorem contains_map_str (rs : List String) (x : String) :
    ((rs.map Json.str).contains (Json.str x)) = rs.contains x := by
  induction rs with
  | nil => rfl
  | cons r rest ih =>
    simp only [List.map_cons, List.contains_cons, ih, json_beq_str]

theorem generate_object_of_schema (env : GenEnv) (fuel : Nat) (schema : Json)
    (name : Option String)
    (hex : schema.get? "example" = none)
    (henum : schema.get? "enum" = none)
    (hone : schema.get? "oneOf" = none)
    (hany : schema.get? "anyOf" = none)
    (hall : schema.get? "allOf" = none)
    (htype : schema.get? "type" = some (Json.str "object")) :
    generate_from_schema env (fuel + 1) schema name =
      generate_object_example (fun s n => generate_from_schema env fuel s n) schema := by
  rw [generate_from_schema_succ env fuel schema name hex,
    generate_dispatch_type env _ schema name henum hone hany hall]
  simp [Json.getD, htype, json_beq_str]

theorem req_fold (gen : Json → Option String → Json) (props : List (String × Json)) :
    ∀ (rs : List String) (acc : List (String × Json)),
      rs.Nodup → (∀ r ∈ rs, r ∉ acc.map Prod.fst) →
      ((rs.map Json.str).foldl
        (fun ex r =>
          match r with
          | .str rn =>
            match props.lookup rn with
            | some ps => updateField ex rn (gen ps (some rn))
            | none => ex
          | _ => ex) acc)
      = acc ++ (rs.filter (fun r => (props.lookup r).isSome)).map
          (fun r => (r, gen ((props.lookup r).getD Json.null) (some r))) := by
  intro rs
  induction rs with
  | nil => intro acc _ _; simp
  | cons r rest ih =>
    intro acc hnd hacc
    simp only [List.nodup_cons] at hnd
    rw [List.map_cons, List.foldl_cons]
    cases hl : props.lookup r with
    | none =>
      dsimp only
      simp only [hl]
      rw [ih acc hnd.2 (fun q hq => hacc q (List.mem_cons_of_mem r hq))]
      simp [List.filter_cons, hl]
    | some ps =>
      have hr : r ∉ acc.map Prod.fst := hacc r (List.mem_cons_self r rest)
      dsimp only
      simp only [hl]
      rw [updateField_append_of_notMem acc r _ hr]
      rw [ih _ hnd.2 ?hcond]
      case hcond =>
        intro q hq
        simp only [List.map_append, List.mem_append]
        push_neg
        refine ⟨hacc q (List.mem_cons_of_mem r hq), ?_⟩
        simp only [List.map_cons, List.map_nil, List.mem_singleton]
        exact fun hq2 => hnd.1 (hq2 ▸ hq)
      simp [List.filter_cons, hl, List.append_assoc]

theorem opt_fold (gen : Json → Option String → Json) (req : List Json) :
    ∀ (ps : List (String × Json)) (acc : List (String × Json)) (cnt : Nat),
      (ps.map Prod.fst).Nodup →
      (∀ p ∈ ps, req.contains (Json.str p.1) = false → p.1 ∉ acc.map Prod.fst) →
      (ps.foldl
        (fun acc p =>
          if !(req.contains (Json.str p.1)) && acc.2 < 3 then
            (updateField acc.1 p.1 (gen p.2 (some p.1)), acc.2 + 1)
          else acc) (acc, cnt)).1
      = acc ++ ((ps.filter (fun p => !(req.contains (Json.str p.1)))).take (3 - cnt)).map
          (fun p => (p.1, gen p.2 (some p.1))) := by
  intro ps
  induction ps with
  | nil => intro acc cnt _ _; simp
  | cons p rest ih =>
    intro acc cnt hnd hacc
    simp only [List.map_cons, List.nodup_cons] at hnd
    rw [List.foldl_cons]
    by_cases hq : req.contains (Json.str p.1) = true
    · have hstep : (!(req.contains (Json.str p.1)) && decide (cnt < 3)) = false := by
        rw [hq]; simp
      have hfil : (p :: rest).filter (fun q => !(req.contains (Json.str q.1))) =
          rest.filter (fun q => !(req.contains (Json.str q.1))) :=
        List.filter_cons_of_neg (by rw [hq]; simp)
      simp only [hstep, if_false, Bool.false_eq_true]
      rw [ih acc cnt hnd.2 (fun q hq2 hq3 => hacc q (List.mem_cons_of_mem p hq2) hq3), hfil]
    · simp only [Bool.not_eq_true] at hq
      have hfil : (p :: rest).filter (fun q => !(req.contains (Json.str q.1))) =
          p :: rest.filter (fun q => !(req.contains (Json.str q.1))) :=
        List.filter_cons_of_pos (by rw [hq]; simp)
      by_cases hc : cnt < 3
      · have hstep : (!(req.contains (Json.str p.1)) && decide (cnt < 3)) = true := by
          rw [hq]; simp [hc]
        simp only [hstep, if_true]
        have hp1 : p.1 ∉ acc.map Prod.fst := hacc p (List.mem_cons_self p rest) hq
        rw [updateField_append_of_notMem acc p.1 _ hp1]
        rw [ih _ (cnt + 1) hnd.2 ?hcond2]
        case hcond2 =>
          intro q hq2 hq3
          simp only [List.map_append, List.mem_append]
          push_neg
          refine ⟨hacc q (List.mem_cons_of_mem p hq2) hq3, ?_⟩
          simp only [List.map_cons, List.map_nil, List.mem_singleton]
          intro hq4
          exact hnd.1 (hq4 ▸ List.mem_map_of_mem Prod.fst hq2)
        have htake : 3 - cnt = (3 - (cnt + 1)) + 1 := by omega
        rw [hfil, htake, List.take_succ_cons, List.map_cons, List.append_assoc]
        rfl
      · have hstep : (!(req.contains (Json.str p.1)) && decide (cnt < 3)) = false := by
          rw [hq]; simp [hc]
        simp only [hstep, if_false, Bool.false_eq_true]
        rw [ih acc cnt hnd.2 (fun q hq2 hq3 => hacc q (List.mem_cons_of_mem p hq2) hq3), hfil]
        have htake : 3 - cnt = 0 := by omega
        rw [htake]
        simp

theorem str_contains_of_mem (l : List String) (x : String) (h : x ∈ l) :
    l.contains x = true := by
  induction l with
  | nil => cases h
  | cons a rest ih =>
    rcases List.mem_cons.mp h with h | h
    · subst h
      simp [List.contains_cons]
    · simp [List.contains_cons, ih h]
      exact Or.inr h

/-- Claim C6 (confirmed): for an object schema with no example, enum or
composition keywords, whose properties keys and required names are
duplicate-free strings, the generated example holds exactly the required
names that appear under properties (first, in required-list order, each
generated from its property schema) followed by the first at most 3
non-required properties in property order; all later non-required
properties are omitted. -/
theorem C6_object_example_fields (env : GenEnv) (fuel : Nat) (schema : Json) (name : Option String)
    (props : List (String × Json)) (reqStrs : List String)
    (hex : schema.get? "example" = none)
    (henum : schema.get? "enum" = none)
    (hone : schema.get? "oneOf" = none)
    (hany : schema.get? "anyOf" = none)
    (hall : schema.get? "allOf" = none)
    (htype : schema.get? "type" = some (Json.str "object"))
    (hprops : schema.get? "properties" = some (Json.obj props))
    (hpnd : (props.map Prod.fst).Nodup)
    (hreq : schema.get? "required" = some (Json.arr (reqStrs.map Json.str)))
    (hrnd : reqStrs.Nodup) :
    generate_from_schema env (fuel + 1) schema name =
      Json.obj (
        (reqStrs.filter (fun r => (props.lookup r).isSome)).map
          (fun r => (r, generate_from_schema env fuel ((props.lookup r).getD Json.null)
            (some r)))
        ++ ((props.filter (fun p => !(reqStrs.contains p.1))).take 3).map
          (fun p => (p.1, generate_from_schema env fuel p.2 (some p.1)))) := by
  rw [generate_object_of_schema env fuel schema name hex henum hone hany hall htype]
  unfold generate_object_example
  simp only [Json.getD, hprops, hreq, Option.getD_some, objEntries, arrElems]
  rw [req_fold (fun s n => generate_from_schema env fuel s n) props reqStrs [] hrnd
    (by intro r _ h; simp at h)]
  rw [opt_fold (fun s n => generate_from_schema env fuel s n) (reqStrs.map Json.str) props _ 0
    hpnd ?hcond]
  case hcond =>
    intro p hp hq
    rw [contains_map_str] at hq
    simp only [List.nil_append, List.map_map]
    intro hmem
    rcases List.mem_map.mp hmem with ⟨r, hr, hr2⟩
    rcases List.mem_filter.mp hr with ⟨hrmem, _⟩
    have hr3 : r = p.1 := hr2
    rw [str_contains_of_mem reqStrs p.1 (hr3 ▸ hrmem)] at hq
    cases hq
  have hfun : (fun p : String × Json => !((reqStrs.map Json.str).contains (Json.str p.1))) =
      (fun p : String × Json => !(reqStrs.contains p.1)) := by
    funext p
    rw [contains_map_str]
  rw [hfun]
  simp

/-- Witness for C6 on a schema with required id and four optional booleans:
the example holds id plus the first three optional properties only. -/
theorem C6_object_example_fields_witness :
    generate_from_schema envC 2
      (Json.obj [
        ("type", Json.str "object"),
        ("properties", Json.obj [
          ("id", Json.obj [("type", Json.str "integer")]),
          ("a", Json.obj [("type", Json.str "boolean")]),
          ("b", Json.obj [("type", Json.str "boolean")]),
          ("c", Json.obj [("type", Json.str "boolean")]),
          ("d", Json.obj [("type", Json.str "boolean")])]),
        ("required", Json.arr [Json.str "id"])]) none =
      Json.obj [("id", Json.int 12345), ("a", Json.bool false), ("b", Json.bool false),
        ("c", Json.bool false)] := by
  exact (C6_object_example_fields envC 1 _ none
    [("id", Json.obj [("type", Json.str "integer")]),
     ("a", Json.obj [("type", Json.str "boolean")]),
     ("b", Json.obj [("type", Json.str "boolean")]),
     ("c", Json.obj [("type", Json.str "boolean")]),
     ("d", Json.obj [("type", Json.str "boolean")])]
    ["id"]
    (by decide) (by decide) (by decide) (by decide) (by decide) (by decide) (by decide)
    (by decide) (by decide) (by decide)).trans (by decide)

/-! Helper lemmas for the success-status scan of _parse_responses. -/

theorem responsesFoldStep_keeps (env : GenEnv) (fuel : Nat) (ep : EndpointData)
    (e : String × Json) (h : isTruthy ep.success_response_example = true) :
    (responsesFoldStep env fuel ep e).success_status_code = ep.success_status_code
    ∧ isTruthy (responsesFoldStep env fuel ep e).success_response_example = true := by
  unfold responsesFoldStep
  dsimp only
  simp [h]

theorem fold_keeps_success (env : GenEnv) (fuel : Nat) :
    ∀ (rs : List (String × Json)) (ep : EndpointData),
      isTruthy ep.success_response_example = true →
      ((rs.foldl (responsesFoldStep env fuel) ep).success_status_code =
        ep.success_status_code
      ∧ isTruthy (rs.foldl (responsesFoldStep env fuel)
          ep).success_response_example = true) := by
  intro rs
  induction rs with
  | nil => intro ep h; exact ⟨rfl, h⟩
  | cons e rest ih =>
    intro ep h
    rw [List.foldl_cons]
    have hstep := responsesFoldStep_keeps env fuel ep e h
    have hrest := ih (responsesFoldStep env fuel ep e) hstep.2
    exact ⟨hrest.1.trans hstep.1, hrest.2⟩

theorem responsesFoldStep_responses (env : GenEnv) (fuel : Nat) (ep : EndpointData)
    (e : String × Json) :
    (responsesFoldStep env fuel ep e).responses =
      updateField ep.responses e.1
        (Json.obj [("status_code", Json.str e.1),
          ("description", e.2.getD "description" (Json.str "")),
          ("examples", Json.arr (responseExamples env fuel e.2))]) := by
  unfold responsesFoldStep
  dsimp only
  split
  · split <;> rfl
  · rfl

theorem fold_responses_keys (env : GenEnv) (fuel : Nat) :
    ∀ (rs : List (String × Json)) (ep : EndpointData) (c : String),
      (((rs.foldl (responsesFoldStep env fuel) ep).responses.lookup c).isSome) =
        (((ep.responses.lookup c).isSome) || ((rs.map Prod.fst).contains c)) := by
  intro rs
  induction rs with
  | nil => intro ep c; simp
  | cons e rest ih =>
    intro ep c
    rw [List.foldl_cons, ih]
    rw [responsesFoldStep_responses env fuel ep e]
    rw [isSome_lookup_updateField]
    simp [List.contains_cons, Bool.or_assoc]

theorem responses_fold_code (env : GenEnv) (fuel : Nat) :
    ∀ (rs : List (String × Json)) (ep : EndpointData),
      ep.success_response_example = Json.null →
      ep.success_status_code = none →
      (∀ p ∈ rs, (match responseExamples env fuel p.2 with
        | e :: _ => isTruthy e
        | [] => true) = true) →
      (match rs.find?
          (fun p => strStartsWith p.1 "2" && !(responseExamples env fuel p.2).isEmpty) with
       | some p => (rs.foldl (responsesFoldStep env fuel) ep).success_status_code = some p.1
       | none => (rs.foldl (responsesFoldStep env fuel) ep).success_status_code = none
           ∧ (rs.foldl (responsesFoldStep env fuel) ep).success_response_example =
             Json.null) := by
  intro rs
  induction rs with
  | nil =>
    intro ep h1 h2 _
    simp only [List.find?_nil, List.foldl_nil]
    exact ⟨h2, h1⟩
  | cons p rest ih =>
    intro ep h1 h2 hh
    rw [List.foldl_cons]
    by_cases hq : (strStartsWith p.1 "2" && !(responseExamples env fuel p.2).isEmpty) = true
    · simp only [List.find?, hq]
      simp only [Bool.and_eq_true] at hq
      cases heq : responseExamples env fuel p.2 with
      | nil => rw [heq] at hq; simp at hq
      | cons e es =>
        have hstep : responsesFoldStep env fuel ep p =
            { ep with
              responses := updateField ep.responses p.1
                (Json.obj [("status_code", Json.str p.1),
                  ("description", p.2.getD "description" (Json.str "")),
                  ("examples", Json.arr (responseExamples env fuel p.2))]),
              success_response_example := e, success_status_code := some p.1 } := by
          unfold responsesFoldStep
          dsimp only
          rw [heq]
          simp only [h1, hq.1, isTruthy, Bool.not_false, Bool.and_true, if_true]
        rw [hstep]
        have htr : isTruthy e = true := by
          have hx := hh p (List.mem_cons_self p rest)
          rw [heq] at hx
          exact hx
        have hkeep := fold_keeps_success env fuel rest
          { ep with
            responses := updateField ep.responses p.1
              (Json.obj [("status_code", Json.str p.1),
                ("description", p.2.getD "description" (Json.str "")),
                ("examples", Json.arr (responseExamples env fuel p.2))]),
            success_response_example := e, success_status_code := some p.1 }
          (by simpa using htr)
        rw [hkeep.1]
    · simp only [Bool.not_eq_true] at hq
      simp only [List.find?, hq]
      have hstep : (responsesFoldStep env fuel ep p).success_response_example = Json.null
          ∧ (responsesFoldStep env fuel ep p).success_status_code = none := by
        unfold responsesFoldStep
        dsimp only
        by_cases hs : strStartsWith p.1 "2" = true
        · have hemp : responseExamples env fuel p.2 = [] := by
            rw [hs] at hq
            simp at hq
            exact hq
          simp [hs, hemp, h1, h2, isTruthy]
        · simp only [Bool.not_eq_true] at hs
          simp [hs, h1, h2]
      exact ih _ hstep.1 hstep.2 (fun q hq2 => hh q (List.mem_cons_of_mem p hq2))

theorem find?_congr_pred {α : Type} {p q : α → Bool} (h : ∀ a, p a = q a) :
    ∀ l : List α, l.find? p = l.find? q := by
  intro l
  induction l with
  | nil => rfl
  | cons a rest ih =>
    simp only [List.find?, h a, ih]

theorem startsWith2_nonempty (s : String) (h : strStartsWith s "2" = true) :
    (!s.data.isEmpty) = true := by
  unfold strStartsWith at h
  cases hd : s.data with
  | nil =>
    rw [hd] at h
    simp [listPre] at h
  | cons c cs => simp

/-- Claim C3 (corrected): during the document-order scan, the first response
whose status starts with 2 and whose computed example list is non-empty
claims success_status_code (assuming no truthy pre-extracted success example
and truthy example heads); only when no response qualifies does the
preference list 200, 201, 202, 204 pick the first of those present.  The
original claim put the preference list first, which the counterexample
refutes. -/
theorem C3_success_code_selection (env : GenEnv) (fuel : Nat) (op : Json) (ep : EndpointData)
    (hex : isTruthy (extract_existing_example op "responses") = false)
    (h1 : ep.success_response_example = Json.null)
    (h2 : ep.success_status_code = none)
    (h3 : ep.responses = [])
    (hh : ∀ p ∈ objEntries (op.getD "responses" (Json.obj [])),
      (match responseExamples env fuel p.2 with
        | e :: _ => isTruthy e
        | [] => true) = true) :
    (parse_responses env fuel ep op).success_status_code =
      (match (objEntries (op.getD "responses" (Json.obj []))).find?
          (fun p => strStartsWith p.1 "2" && !(responseExamples env fuel p.2).isEmpty) with
       | some p => some p.1
       | none => ["200", "201", "202", "204"].find?
           (fun c => ((objEntries (op.getD "responses" (Json.obj []))).map Prod.fst).contains c)) := by
  unfold parse_responses
  dsimp only
  rw [hex]
  simp only [Bool.false_eq_true, if_false]
  have hmain := responses_fold_code env fuel (objEntries (op.getD "responses" (Json.obj [])))
    ep h1 h2 hh
  cases hfind : (objEntries (op.getD "responses" (Json.obj []))).find?
      (fun p => strStartsWith p.1 "2" && !(responseExamples env fuel p.2).isEmpty) with
  | some p =>
    rw [hfind] at hmain
    have hpred := List.find?_some hfind
    simp only [Bool.and_eq_true] at hpred
    have hne : optStrTruthy ((objEntries (op.getD "responses" (Json.obj []))).foldl
        (responsesFoldStep env fuel) ep).success_status_code = true := by
      rw [hmain]
      unfold optStrTruthy
      exact startsWith2_nonempty p.1 hpred.1
    rw [hne]
    simp only [if_true]
    exact hmain
  | none =>
    rw [hfind] at hmain
    have hne : optStrTruthy ((objEntries (op.getD "responses" (Json.obj []))).foldl
        (responsesFoldStep env fuel) ep).success_status_code = false := by
      rw [hmain.1]
      rfl
    rw [hne]
    simp only [Bool.false_eq_true, if_false]
    have hkeys : ∀ c, ((((objEntries (op.getD "responses" (Json.obj []))).foldl
        (responsesFoldStep env fuel) ep).responses.lookup c).isSome) =
        (((objEntries (op.getD "responses" (Json.obj []))).map Prod.fst).contains c) := by
      intro c
      rw [fold_responses_keys env fuel _ ep c, h3]
      simp [List.lookup]
    rw [find?_congr_pred hkeys]
    cases hfind2 : ["200", "201", "202", "204"].find?
        (fun c => ((objEntries (op.getD "responses" (Json.obj []))).map Prod.fst).contains c) with
    | some c =>
      simp only [hfind2]
    | none =>
      simp only [hfind2]
      exact hmain.1

/-- Counterexample for C3: responses listed as 202 then 200, both with a
schema-bearing JSON body.  The claim predicts success_status_code 200 (the
first of 200/201/202/204 present); the code records 202, the first 2xx
response in document order with a non-empty example list. -/
theorem C3_success_code_order_cex :
    (parse_responses envC 1 {}
      (Json.obj [("responses", Json.obj [
        ("202", Json.obj [("description", Json.str "ok"),
          ("content", Json.obj [("application/json",
            Json.obj [("schema", Json.obj [("type", Json.str "integer")])])])]),
        ("200", Json.obj [("description", Json.str "ok"),
          ("content", Json.obj [("application/json",
            Json.obj [("schema", Json.obj [("type", Json.str "integer")])])])])])])
      ).success_status_code = some "202"
    ∧ ((objEntries ((Json.obj [("responses", Json.obj [
        ("202", Json.obj [("description", Json.str "ok"),
          ("content", Json.obj [("application/json",
            Json.obj [("schema", Json.obj [("type", Json.str "integer")])])])]),
        ("200", Json.obj [("description", Json.str "ok"),
          ("content", Json.obj [("application/json",
            Json.obj [("schema", Json.obj [("type", Json.str "integer")])])])])])]).getD
          "responses" (Json.obj []))).map Prod.fst).contains "200" = true
    ∧ some "202" ≠ (some "200" : Option String) := by
  exact ⟨by decide, by decide, by decide⟩

/-- Witness for C3: with no qualifying 2xx response (no content anywhere),
the fallback picks 200, the first of the preference list present. -/
theorem C3_success_code_selection_witness :
    (parse_responses envC 1 {}
      (Json.obj [("responses", Json.obj [
        ("404", Json.obj [("description", Json.str "missing")]),
        ("200", Json.obj [("description", Json.str "ok")])])])).success_status_code =
      some "200" := by
  exact (C3_success_code_selection envC 1
    (Json.obj [("responses", Json.obj [
      ("404", Json.obj [("description", Json.str "missing")]),
      ("200", Json.obj [("description", Json.str "ok")])])])
    {} (by decide) (by decide) (by decide) (by decide) (by decide)).trans (by decide)
